import Mathlib

/-!
Verification development for the Scheduling & Publishing Engine of the
PulseWorks marketing repository.

The definitions below are a shallow embedding of the TypeScript source:

* apps/api/src/services/scheduler.ts      (Scheduler.scheduleContent, generateTimeSlots)
* apps/api/src/worker/index.ts            (publish worker job handler)
* apps/api/src/services/usageTracking.ts  (UsageTrackingService.getUsageCounter)
* routes: the cancel endpoint (DELETE /:id of the schedule router) and the
  Ayrshare webhook handler
* the BullMQ queue helper enqueuePublishJob

Modelling conventions:

* Instants are integers counting minutes since the Unix epoch; calendar days
  are integer day indices since 1970-01-01 (a Thursday).
* The API server's clock/timezone is modelled as UTC, so a JS Date's local
  calendar components coincide with the UTC ones.  A named timezone (IANA
  string, resolved by date-fns-tz in the source) is modelled as a pair of
  functions wall-clock-to-instant / instant-to-wall-clock.
* Database tables are lists of records; Prisma findUnique/findFirst become
  List.find?, findMany becomes List.filter, update becomes a List.map that
  rewrites the matching row, and a transaction is a pure function from the
  old database value to the new one.
* A JS `throw` is an error value; `undefined` becomes Option.none.  A Prisma
  update field fed an undefined JS value leaves the column unchanged, which
  is modelled by a match on the optional payload field.
-/

/-! ## Calendar arithmetic (date-fns startOfMonth / endOfMonth / getDay) -/

/-- Day count since 1970-01-01 of a civil date (days-from-civil algorithm). -/
def civilToDays (y m d : Int) : Int :=
  let y2 := if m ≤ 2 then y - 1 else y
  let era := y2.ediv 400
  let yoe := y2 - era * 400
  let doy := (153 * (m + (if m > 2 then -3 else 9)) + 2).ediv 5 + d - 1
  let doe := yoe * 365 + yoe.ediv 4 - yoe.ediv 100 + doy
  era * 146097 + doe - 719468

/-- Gregorian leap-year test. -/
def isLeapYear (y : Int) : Bool :=
  y.emod 4 == 0 && (y.emod 100 != 0 || y.emod 400 == 0)

/-- Number of days in a civil month. -/
def daysInMonth (y m : Int) : Int :=
  if m = 2 then (if isLeapYear y then 29 else 28)
  else if m = 4 ∨ m = 6 ∨ m = 9 ∨ m = 11 then 30
  else 31

/-- JS Date.getDay for the local-midnight date with day index d
(1970-01-01 has getDay 4, a Thursday), composed with the source's
Sunday-to-7 adjustment: `currentDate.getDay() || 7`. -/
def jsDow (d : Int) : Int :=
  let w := (d + 4).emod 7
  if w = 0 then 7 else w

/-- A civil date-time: calendar components plus minute of day.  This is how
the model passes a JS Date whose calendar components matter (the server is
modelled in UTC, so these are both the local and UTC components). -/
structure CivilDT where
  year : Int
  month : Int
  day : Int
  minute : Int
deriving DecidableEq, Repr

/-- The instant (minutes since epoch) of a civil date-time. -/
def CivilDT.instant (c : CivilDT) : Int :=
  civilToDays c.year c.month c.day * 1440 + c.minute

/-- Instant of date-fns endOfMonth of the given date: the last day of its
month at 23:59 (the source's 23:59:59.999 truncated to minute precision;
the loop bound is unaffected because loop days sit at midnight). -/
def endOfMonthInstant (c : CivilDT) : Int :=
  civilToDays c.year c.month (daysInMonth c.year c.month) * 1440 + 1439

/-- A named timezone as used through date-fns-tz: zonedTimeToUtc maps a
wall-clock reading (encoded linearly as minutes) to an instant, and toLocal
maps an instant back to the wall clock. -/
structure TzModel where
  toUtc : Int → Int
  toLocal : Int → Int

/-- The trivial (UTC-like, fixed offset zero) timezone. -/
def idTz : TzModel := ⟨fun w => w, fun t => t⟩

/-- Calendar day, in the given timezone, containing an instant. -/
def localDayOf (tz : TzModel) (t : Int) : Int :=
  (tz.toLocal t) / 1440

/-- Weekday (1 = Monday .. 7 = Sunday) of an instant in the given timezone. -/
def localWeekday (tz : TzModel) (t : Int) : Int :=
  jsDow (localDayOf tz t)

/-! ## Shared constants (packages/shared/src/constants.ts) -/

/-- TIME_WINDOWS from shared constants. -/
def TIME_WINDOWS : List (String × String) :=
  [("MORNING", "09:30"), ("AFTERNOON", "13:00"), ("EVENING", "18:30")]

/-- Source line: fixedTime or TIME_WINDOWS lookup or the MORNING default. -/
def resolveTimeStr (timeWindow : String) (fixedTime : Option String) : String :=
  fixedTime.getD ((TIME_WINDOWS.lookup timeWindow).getD ("09:30"))

/-- JS String.split on the colon separator, written over the character list
so that proofs and witnesses can evaluate it. -/
def splitOnColon : List Char → List (List Char)
  | [] => [[]]
  | c :: rest =>
    if c = ':' then [] :: splitOnColon rest
    else
      match splitOnColon rest with
      | [] => [[c]]
      | g :: gs => (c :: g) :: gs

/-- JS Number on a split part: the empty string is 0, a digit string is its
value, anything else is NaN (none). -/
def digitsToNat? (cs : List Char) : Option Nat :=
  cs.foldl
    (fun acc c =>
      match acc with
      | none => none
      | some n => if c.isDigit then some (n * 10 + (c.toNat - 48)) else none)
    (some 0)

/-- Source line: timeStr.split on the colon and Number on both halves.  For
the well-formed HH:MM strings reaching this point both parses succeed; a
malformed string (which would make the source produce an Invalid Date) is
mapped to (0, 0) and is excluded by the theorems' hypotheses. -/
def parseHM (s : String) : Int × Int :=
  match (splitOnColon s.data).map digitsToNat? with
  | [some h, some m] => (Int.ofNat h, Int.ofNat m)
  | _ => (0, 0)

/-! ## Data model (Prisma schema rows used by the claims) -/

inductive Platform
  | FACEBOOK
  | INSTAGRAM
deriving DecidableEq, Repr

/-- scheduleItem.platform.toLowerCase() in the worker. -/
def platformKey : Platform → String
  | .FACEBOOK => "facebook"
  | .INSTAGRAM => "instagram"

structure PublishingProfile where
  accountId : String
  status : String
  verifiedAt : Option Int
  facebookProfileId : Option String
  instagramProfileId : Option String
deriving DecidableEq, Repr

structure PostingRule where
  accountId : String
  daysOfWeek : List Int
  timeWindow : String
  fixedTime : Option String
deriving DecidableEq, Repr

structure Account where
  id : String
  timezone : String
  currentPeriodStart : Option Int
  currentPeriodEnd : Option Int
deriving DecidableEq, Repr

structure ContentItem where
  id : String
  accountId : String
  status : String
  platformTargets : List Platform
  caption : String
  hashtags : List String
  mediaUrl : Option String
deriving DecidableEq, Repr

structure ScheduleItem where
  id : String
  accountId : String
  contentItemId : String
  platform : Platform
  scheduledFor : Int
  providerProfileId : String
  providerJobId : Option String
  providerPostId : Option String
  postUrl : Option String
  status : String
  errorMessage : Option String
deriving DecidableEq, Repr

structure UsageCounter where
  accountId : String
  staticUsed : Int
  videoUsed : Int
  autopostUsed : Int
  periodStart : Int
  periodEnd : Int
deriving DecidableEq, Repr

/-- The database state: one list per table touched by the claims. -/
structure Db where
  accounts : List Account
  publishingProfiles : List PublishingProfile
  postingRules : List PostingRule
  contentItems : List ContentItem
  scheduleItems : List ScheduleItem
  usageCounters : List UsageCounter
deriving DecidableEq, Repr

/-- Prisma scheduleItem.update where id: rewrite the matching row. -/
def updateScheduleItem (db : Db) (id : String) (f : ScheduleItem → ScheduleItem) : Db :=
  { db with scheduleItems := db.scheduleItems.map (fun s => if s.id == id then f s else s) }

/-- Prisma contentItem.update where id: rewrite the matching row. -/
def updateContentItem (db : Db) (id : String) (f : ContentItem → ContentItem) : Db :=
  { db with contentItems := db.contentItems.map (fun c => if c.id == id then f c else c) }

/-- The scheduler's per-platform provider id selection, a ternary in the
source (FACEBOOK uses facebookProfileId, otherwise instagramProfileId);
the worker computes expectedProfileId with the same ternary. -/
def providerProfileFor (p : PublishingProfile) : Platform → Option String
  | .FACEBOOK => p.facebookProfileId
  | .INSTAGRAM => p.instagramProfileId

/-! ## Time-slot generator (Scheduler.generateTimeSlots) -/

/-- The while-loop of generateTimeSlots: iterate calendar days d while the
day's midnight instant is not after endInstant (isBefore or equal); keep the
day when its weekday is in daysOfWeek; build the slot by combining the day
with the resolved time and converting that wall-clock reading with the
timezone (zonedTimeToUtc); keep the slot only when strictly in the future. -/
def genSlotsLoop (tz : TzModel) (daysOfWeek : List Int) (hm : Int × Int)
    (now endInstant : Int) : Nat → Int → List Int
  | 0, _ => []
  | fuel + 1, d =>
    if d * 1440 ≤ endInstant then
      if daysOfWeek.contains (jsDow d) then
        if now < tz.toUtc (d * 1440 + hm.1 * 60 + hm.2) then
          tz.toUtc (d * 1440 + hm.1 * 60 + hm.2) ::
            genSlotsLoop tz daysOfWeek hm now endInstant fuel (d + 1)
        else genSlotsLoop tz daysOfWeek hm now endInstant fuel (d + 1)
      else genSlotsLoop tz daysOfWeek hm now endInstant fuel (d + 1)
    else []

/-- Fuel for the day loop: an upper bound (by a factor of 1440) on the
number of iterated days, so the structural recursion above always stops on
the loop condition, exactly like the source's while loop. -/
def genSlotsFuel (endInstant first : Int) : Nat :=
  (endInstant + 1440 - first * 1440).toNat

/-- Scheduler.generateTimeSlots: resolve the time string, start the loop at
startOfMonth(startDate) (the explicit `let currentDate = startOfMonth(...)`
in the source), and sort the slots ascending. -/
def generateTimeSlots (startDate : CivilDT) (endInstant : Int)
    (daysOfWeek : List Int) (timeWindow : String) (fixedTime : Option String)
    (tz : TzModel) (now : Int) : List Int :=
  List.insertionSort (· ≤ ·)
    (genSlotsLoop tz daysOfWeek (parseHM (resolveTimeStr timeWindow fixedTime))
      now endInstant (genSlotsFuel endInstant (civilToDays startDate.year startDate.month 1))
      (civilToDays startDate.year startDate.month 1))

/-! ## Distributor (Scheduler.scheduleContent) -/

/-- The environment of a scheduleContent call: the clock (new Date() as an
instant and as civil components) and the timezone database consulted by
date-fns-tz for a named timezone. -/
structure SchedEnv where
  now : Int
  nowCivil : CivilDT
  tzdb : String → TzModel

structure ScheduleRequest where
  accountId : String
  contentItemIds : List String
  startDate : Option CivilDT
deriving Repr

/-- One entry of the scheduleItems array built in step 6 of the source. -/
structure PendingItem where
  contentItemId : String
  platform : Platform
  scheduledFor : Int
  providerProfileId : String
deriving DecidableEq, Repr

structure ScheduleResult where
  scheduled : Nat
  items : List PendingItem
deriving DecidableEq, Repr

/-- The errors thrown by scheduleContent, in source order, with the thrown
message attached through SchedErr.message. -/
inductive SchedErr
  | destinationNotVerified
  | profileNotVerified
  | postingRuleMissing
  | noEligibleContent
deriving DecidableEq, Repr

def SchedErr.message : SchedErr → String
  | .destinationNotVerified => "Publishing destinations must be verified before scheduling"
  | .profileNotVerified => "Publishing profile not verified"
  | .postingRuleMissing => "Posting rules not configured"
  | .noEligibleContent => "No approved content items found"

/-- Inner platform loop of step 6: stop when slots run out (the break on
slotIndex >= slots.length), skip a platform with no provider profile id
(continue, without consuming a slot), otherwise pair the platform with the
next slot.  Returns the pairs together with the final slotIndex. -/
def pairPlatforms (profile : PublishingProfile) (slots : List Int)
    (contentId : String) : List Platform → Nat → List PendingItem × Nat
  | [], idx => ([], idx)
  | pl :: rest, idx =>
    if slots.length ≤ idx then ([], idx)
    else
      match providerProfileFor profile pl with
      | none => pairPlatforms profile slots contentId rest idx
      | some pid =>
        (⟨contentId, pl, slots.getD idx 0, pid⟩ ::
            (pairPlatforms profile slots contentId rest (idx + 1)).1,
          (pairPlatforms profile slots contentId rest (idx + 1)).2)

/-- Outer content loop of step 6, threading slotIndex through the items. -/
def distribute (profile : PublishingProfile) (slots : List Int) :
    List ContentItem → Nat → List PendingItem
  | [], _ => []
  | c :: rest, idx =>
    (pairPlatforms profile slots c.id c.platformTargets idx).1 ++
      distribute profile slots rest (pairPlatforms profile slots c.id c.platformTargets idx).2

/-- A freshly inserted ScheduleItem row (step 7 create).  The Prisma-generated
primary key is not modelled and is left empty. -/
def mkScheduleItem (accountId : String) (p : PendingItem) : ScheduleItem :=
  { id := "", accountId := accountId, contentItemId := p.contentItemId,
    platform := p.platform, scheduledFor := p.scheduledFor,
    providerProfileId := p.providerProfileId, providerJobId := none,
    providerPostId := none, postUrl := none, status := "QUEUED",
    errorMessage := none }

/-- Step 7 transaction: deleteMany of ScheduleItems whose contentItemId is in
the request and whose accountId matches, create the new rows, and flip each
paired content item's status to SCHEDULED. -/
def applyScheduleTransaction (db : Db) (req : ScheduleRequest)
    (pending : List PendingItem) : Db :=
  let survivors := db.scheduleItems.filter
    (fun s => !(req.contentItemIds.contains s.contentItemId && s.accountId == req.accountId))
  let created := pending.map (mkScheduleItem req.accountId)
  let contentAfter := db.contentItems.map (fun c =>
    if pending.any (fun p => p.contentItemId == c.id) then { c with status := "SCHEDULED" } else c)
  { db with scheduleItems := survivors ++ created, contentItems := contentAfter }

/-- The account timezone lookup of step 3: account?.timezone or the
Pacific/Auckland default. -/
def resolveTimezone (db : Db) (accountId : String) : String :=
  ((db.accounts.find? (fun a => a.id == accountId)).map Account.timezone).getD
    ("Pacific/Auckland")

/-- The approved-content findMany of step 4: id in request.contentItemIds,
accountId matching, status APPROVED. -/
def approvedRequested (db : Db) (req : ScheduleRequest) : List ContentItem :=
  db.contentItems.filter (fun c =>
    req.contentItemIds.contains c.id && c.accountId == req.accountId &&
      c.status == "APPROVED")

/-- Scheduler.scheduleContent.  Returns the outcome (result or thrown error)
together with the database after the call; every throw happens before the
step-7 transaction, so the error cases return the database unchanged.
Note: the committed source performs no queue operation anywhere in this
function - the created rows are only persisted and returned. -/
def scheduleContent (env : SchedEnv) (db : Db) (req : ScheduleRequest) :
    (Except SchedErr ScheduleResult) × Db :=
  match db.publishingProfiles.find? (fun p => p.accountId == req.accountId) with
  | none => (.error .destinationNotVerified, db)
  | some publishingProfile =>
    if publishingProfile.status ≠ "VERIFIED" then (.error .destinationNotVerified, db)
    else if publishingProfile.verifiedAt = none then (.error .profileNotVerified, db)
    else
      match db.postingRules.find? (fun r => r.accountId == req.accountId) with
      | none => (.error .postingRuleMissing, db)
      | some postingRule =>
        let timezone := resolveTimezone db req.accountId
        let contentItems := approvedRequested db req
        if contentItems.isEmpty then (.error .noEligibleContent, db)
        else
          let startDate := req.startDate.getD env.nowCivil
          let slots := generateTimeSlots startDate (endOfMonthInstant startDate)
            postingRule.daysOfWeek postingRule.timeWindow postingRule.fixedTime
            (env.tzdb timezone) env.now
          let pending := distribute publishingProfile slots contentItems 0
          (.ok ⟨pending.length, pending⟩, applyScheduleTransaction db req pending)

/-! ## Dispatcher helper (services/queue.ts enqueuePublishJob) -/

/-- A BullMQ delayed job as produced by publishQueue.add in
enqueuePublishJob. -/
structure QueueJob where
  jobId : String
  scheduleItemId : String
  delay : Int
deriving DecidableEq, Repr

/-- enqueuePublishJob: delay clamped at zero, deterministic job id derived
from the schedule item id.  Exported by services/queue.ts; the committed
scheduleContent never calls it. -/
def enqueuePublishJob (now : Int) (scheduleItemId : String) (scheduledFor : Int) : QueueJob :=
  { jobId := "publish-" ++ scheduleItemId, scheduleItemId := scheduleItemId,
    delay := max 0 (scheduledFor - now) }

/-! ## Publish worker (apps/api/src/worker/index.ts) -/

structure AyrPostResult where
  platform : String
  postId : Option String
  postUrl : Option String
  status : String
deriving DecidableEq, Repr

structure AyrResponse where
  id : Option String
  postIds : List AyrPostResult
  errors : List String
deriving DecidableEq, Repr

/-- The payload handed to ayrshareClient.createPost. -/
structure AyrPostRequest where
  post : String
  platforms : List String
  mediaUrls : Option (List String)
  profileKey : String
deriving DecidableEq, Repr

/-- The errors thrown by the worker handler, with the thrown message
attached through WorkerErr.message. -/
inductive WorkerErr
  | itemNotFound (id : String)
  | accountMismatch
  | profileNotFound
  | profileMismatch
  | providerError (msg : String)
deriving DecidableEq, Repr

def WorkerErr.message : WorkerErr → String
  | .itemNotFound id => "Schedule item not found: " ++ id
  | .accountMismatch => "Account mismatch - security violation"
  | .profileNotFound => "Publishing profile not found"
  | .profileMismatch => "Provider profile mismatch - destinations may have changed"
  | .providerError m => m

/-- JS h.startsWith on the hash character, written over the character list
so that it evaluates in proofs. -/
def startsWithHash (h : String) : Bool :=
  match h.data with
  | c :: _ => c == '#'
  | [] => false

/-- hashtags.map(h => h.startsWith hash ? h : hash+h).join(space). -/
def hashtagsText (hs : List String) : String :=
  String.intercalate (" ") (hs.map (fun h => if startsWithHash h then h else "#" ++ h))

/-- caption + blank line + hashtag text. -/
def fullTextOf (c : ContentItem) : String :=
  c.caption ++ "\n\n" ++ hashtagsText c.hashtags

/-- Result of one worker execution: the database afterwards, the provider
request if the provider was called (none means the Ayrshare client was never
invoked), and the error rethrown to BullMQ if any. -/
structure WorkerResult where
  db : Db
  providerRequest : Option AyrPostRequest
  error : Option WorkerErr
deriving Repr

/-- The worker job handler.  The Ayrshare call itself is external, so its
outcome is an input: either a thrown transport error or a parsed response.
The structure mirrors the source: load item (with content and account),
ownership check, load the current publishing profile, destination-freshness
check (all BEFORE the try block), then the try block with the provider call,
the outcome update, the all-published content flip, and the catch block that
marks the row FAILED only for errors thrown inside the try. -/
def workerProcessJob (db : Db) (scheduleItemId : String)
    (providerOutcome : Except String AyrResponse) : WorkerResult :=
  match db.scheduleItems.find? (fun s => s.id == scheduleItemId) with
  | none => ⟨db, none, some (.itemNotFound scheduleItemId)⟩
  | some scheduleItem =>
    match db.contentItems.find? (fun c => c.id == scheduleItem.contentItemId) with
    | none => ⟨db, none, some (.itemNotFound scheduleItemId)⟩
    | some contentItem =>
      if contentItem.accountId ≠ scheduleItem.accountId then
        ⟨db, none, some .accountMismatch⟩
      else
        match db.publishingProfiles.find? (fun p => p.accountId == scheduleItem.accountId) with
        | none => ⟨db, none, some .profileNotFound⟩
        | some publishingProfile =>
          if providerProfileFor publishingProfile scheduleItem.platform
              ≠ some scheduleItem.providerProfileId then
            ⟨db, none, some .profileMismatch⟩
          else
            let mediaUrls : List String :=
              match contentItem.mediaUrl with
              | some u => [u]
              | none => []
            let req : AyrPostRequest :=
              { post := fullTextOf contentItem,
                platforms := [platformKey scheduleItem.platform],
                mediaUrls := if mediaUrls.length > 0 then some mediaUrls else none,
                profileKey := scheduleItem.providerProfileId }
            match providerOutcome with
            | .error msg =>
              let db2 := updateScheduleItem db scheduleItemId (fun s =>
                { s with status := "FAILED", errorMessage := some msg })
              ⟨db2, some req, some (.providerError msg)⟩
            | .ok response =>
              let postResult := response.postIds.find?
                (fun p => p.platform == platformKey scheduleItem.platform)
              let db2 := updateScheduleItem db scheduleItemId (fun s =>
                { s with
                  providerJobId := match response.id with
                    | some v => some v
                    | none => s.providerJobId,
                  providerPostId := match postResult.bind AyrPostResult.postId with
                    | some v => some v
                    | none => s.providerPostId,
                  postUrl := match postResult.bind AyrPostResult.postUrl with
                    | some v => some v
                    | none => s.postUrl,
                  status := if postResult.map AyrPostResult.status = some ("success")
                    then "PUBLISHED" else "FAILED",
                  errorMessage := match response.errors.head? with
                    | some m => some m
                    | none => s.errorMessage })
              let allSchedules := db2.scheduleItems.filter
                (fun s => s.contentItemId == scheduleItem.contentItemId)
              let allPublished := allSchedules.all (fun s => s.status == "PUBLISHED")
              let db3 := if allPublished
                then updateContentItem db2 scheduleItem.contentItemId
                  (fun c => { c with status := "PUBLISHED" })
                else db2
              ⟨db3, some req, none⟩

/-! ## Ayrshare webhook (routes/webhooks.ts, /ayrshare handler) -/

structure AyrWebhookBody where
  action : String
  status : String
  id : Option String
  postId : Option String
  postUrl : Option String
  errors : Option (List String)
  platform : Option String
deriving DecidableEq, Repr

/-- body.errors?.join(comma-space) || the unknown-error default: an absent
or empty join (JS falsy empty string) falls back to the default. -/
def webhookErrorText (errors : Option (List String)) : String :=
  let j := String.intercalate (", ") (errors.getD [])
  if j = "" then "Unknown error" else j

/-- The Ayrshare webhook handler: look the ScheduleItem up by providerJobId
and apply the status-dependent update object (an empty update when the
status is neither success nor error). -/
def ayrshareWebhook (db : Db) (body : AyrWebhookBody) : Db :=
  match body.id with
  | none => db
  | some jobId =>
    match db.scheduleItems.find? (fun s => s.providerJobId == some jobId) with
    | none => db
    | some scheduleItem =>
      let f : ScheduleItem → ScheduleItem :=
        if body.status = "success" then
          fun s =>
            { s with
              status := "PUBLISHED"
              providerPostId := match body.postId with
                | some v => some v
                | none => s.providerPostId
              postUrl := match body.postUrl with
                | some v => some v
                | none => s.postUrl }
        else if body.status = "error" then
          fun s => { s with status := "FAILED", errorMessage := some (webhookErrorText body.errors) }
        else fun s => s
      updateScheduleItem db scheduleItem.id f

/-! ## Cancel endpoint (DELETE /:id of the schedule router) -/

inductive CancelResponse
  | notFound
  | cannotCancelPublished
  | success
deriving DecidableEq, Repr

/-- The cancel handler: findFirst by id and accountId, refuse when already
PUBLISHED, set status CANCELLED, and revert the content item to APPROVED
when no QUEUED or SCHEDULED rows remain for it.  The handler performs no
queue operation: the BullMQ job for the item, if any, is left in place. -/
def cancelScheduledPost (db : Db) (accountId itemId : String) : CancelResponse × Db :=
  match db.scheduleItems.find? (fun s => s.id == itemId && s.accountId == accountId) with
  | none => (.notFound, db)
  | some scheduleItem =>
    if scheduleItem.status = "PUBLISHED" then (.cannotCancelPublished, db)
    else
      let db2 := updateScheduleItem db itemId (fun s => { s with status := "CANCELLED" })
      let remaining := (db2.scheduleItems.filter (fun s =>
        s.contentItemId == scheduleItem.contentItemId &&
          (s.status == "QUEUED" || s.status == "SCHEDULED"))).length
      let db3 := if remaining = 0
        then updateContentItem db2 scheduleItem.contentItemId
          (fun c => { c with status := "APPROVED" })
        else db2
      (.success, db3)

/-! ## Quota ledger (UsageTrackingService.getUsageCounter) -/

/-- The zeroed counter written by both branches of the upsert. -/
def zeroCounter (accountId : String) (periodStart periodEnd : Int) : UsageCounter :=
  { accountId := accountId, staticUsed := 0, videoUsed := 0, autopostUsed := 0,
    periodStart := periodStart, periodEnd := periodEnd }

/-- prisma.usageCounter.upsert where accountId: replace the existing row
with the zeroed counter, or append it when there is none. -/
def upsertUsageCounter (db : Db) (accountId : String) (periodStart periodEnd : Int) :
    UsageCounter × Db :=
  let z := zeroCounter accountId periodStart periodEnd
  match db.usageCounters.find? (fun u => u.accountId == accountId) with
  | some _ =>
    (z, { db with usageCounters :=
            db.usageCounters.map (fun u => if u.accountId == accountId then z else u) })
  | none => (z, { db with usageCounters := db.usageCounters ++ [z] })

/-- UsageTrackingService.getUsageCounter: load the account with its billing
period and counter, return the stored counter when its period matches the
account's current billing period, otherwise upsert the zeroed counter for
the current period. -/
def getUsageCounter (db : Db) (accountId : String) :
    (Except String UsageCounter) × Db :=
  match db.accounts.find? (fun a => a.id == accountId) with
  | none => (.error ("Account not found"), db)
  | some account =>
    match account.currentPeriodStart, account.currentPeriodEnd with
    | some periodStart, some periodEnd =>
      match db.usageCounters.find? (fun u => u.accountId == accountId) with
      | some counter =>
        if counter.periodStart = periodStart ∧ counter.periodEnd = periodEnd then
          (.ok counter, db)
        else
          (.ok (upsertUsageCounter db accountId periodStart periodEnd).1,
            (upsertUsageCounter db accountId periodStart periodEnd).2)
      | none =>
        (.ok (upsertUsageCounter db accountId periodStart periodEnd).1,
          (upsertUsageCounter db accountId periodStart periodEnd).2)
    | _, _ => (.error ("Billing period not set - subscription may not be active"), db)

/-! ## Concrete fixtures used by witnesses and counterexamples -/

/-- A timezone database mapping every name to the trivial timezone. -/
def tzdbId : String → TzModel := fun _ => idTz

def acctW : Account := ⟨"acct-1", "Pacific/Auckland", none, none⟩

def profileFb : PublishingProfile := ⟨"acct-1", "VERIFIED", some 100, some "fb-1", none⟩

def ruleWed : PostingRule := ⟨"acct-1", [3], "MORNING", none⟩

def contentW : ContentItem := ⟨"c1", "acct-1", "APPROVED", [.FACEBOOK], "Hello", [], none⟩

/-- Fixture database: verified profile, Wednesday morning rule, one approved
content item, no schedule rows yet. -/
def dbSched : Db := ⟨[acctW], [profileFb], [ruleWed], [contentW], [], []⟩

/-- Clock fixed at 2024-12-01T00:00Z. -/
def envDec : SchedEnv := ⟨civilToDays 2024 12 1 * 1440, ⟨2024, 12, 1, 0⟩, tzdbId⟩

/-- A request with the explicit startDate 2025-01-15. -/
def reqJan15 : ScheduleRequest := ⟨"acct-1", ["c1"], some ⟨2025, 1, 15, 0⟩⟩

/-- The instant 2025-01-01T09:30Z, the first Wednesday MORNING slot of
January 2025. -/
def jan1Slot : Int := civilToDays 2025 1 1 * 1440 + 570

/-- A queued schedule row frozen to provider profile id profile-A. -/
def itemS1 : ScheduleItem :=
  ⟨"s1", "acct-1", "c1", .FACEBOOK, 100, "profile-A", none, none, none, "QUEUED", none⟩

/-- Current profile whose facebook destination is profile-B (differs from
the frozen profile-A of itemS1). -/
def profileBNow : PublishingProfile := ⟨"acct-1", "VERIFIED", some 100, some "profile-B", none⟩

/-- Database in which the destination changed after scheduling. -/
def dbChanged : Db := ⟨[], [profileBNow], [], [contentW], [itemS1], []⟩

/-- Current profile still matching the frozen profile-A of itemS1. -/
def profileANow : PublishingProfile := ⟨"acct-1", "VERIFIED", some 100, some "profile-A", none⟩

/-- Database in which itemS1 is still fresh (destination unchanged). -/
def dbFresh : Db := ⟨[], [profileANow], [], [contentW], [itemS1], []⟩

/-- A successful Ayrshare response for a facebook post. -/
def respOk : AyrResponse := ⟨some "ayr-1", [⟨"facebook", some "p1", some "u1", "success"⟩], []⟩

/-- Pre-existing schedule rows for the re-scheduling frame fixture: one for
requested content c1, one for requested-but-unapproved content c2, one for
untouched content c9 of the same account, one for another account. -/
def oldItemC1 : ScheduleItem :=
  ⟨"old1", "acct-1", "c1", .FACEBOOK, 50, "fb-0", none, none, none, "FAILED", some "boom"⟩

def oldItemC2 : ScheduleItem :=
  ⟨"old2", "acct-1", "c2", .FACEBOOK, 60, "fb-0", none, none, none, "QUEUED", none⟩

def oldItemC9 : ScheduleItem :=
  ⟨"old9", "acct-1", "c9", .FACEBOOK, 70, "fb-0", none, none, none, "QUEUED", none⟩

def oldItemOther : ScheduleItem :=
  ⟨"oldX", "acct-2", "c1", .FACEBOOK, 80, "fb-9", none, none, none, "QUEUED", none⟩

def contentC2Draft : ContentItem := ⟨"c2", "acct-1", "DRAFT", [.FACEBOOK], "Draft", [], none⟩

def dbFrame : Db :=
  ⟨[acctW], [profileFb], [ruleWed], [contentW, contentC2Draft],
    [oldItemC1, oldItemC2, oldItemC9, oldItemOther], []⟩

def reqFrame : ScheduleRequest := ⟨"acct-1", ["c1", "c2"], some ⟨2025, 1, 15, 0⟩⟩

/-- Accounts and counters for the usage-counter witnesses. -/
def acctBilling : Account := ⟨"acct-b", "Pacific/Auckland", some 1000, some 2000⟩

def counterMatching : UsageCounter := ⟨"acct-b", 3, 1, 2, 1000, 2000⟩

def counterStale : UsageCounter := ⟨"acct-b", 3, 1, 2, 500, 900⟩

def dbUsageMatch : Db := ⟨[acctBilling], [], [], [], [], [counterMatching]⟩

def dbUsageStale : Db := ⟨[acctBilling], [], [], [], [], [counterStale]⟩

/-- Databases exercising each precondition failure of scheduleContent. -/
def dbNoProfile : Db := ⟨[acctW], [], [], [contentW], [], []⟩

def profileUnverifiedAt : PublishingProfile := ⟨"acct-1", "VERIFIED", none, some "fb-1", none⟩

def dbNoVerifiedAt : Db := ⟨[acctW], [profileUnverifiedAt], [], [contentW], [], []⟩

def dbNoRule : Db := ⟨[acctW], [profileFb], [], [contentW], [], []⟩

def dbNoApproved : Db := ⟨[acctW], [profileFb], [ruleWed], [contentC2Draft], [], []⟩

/-- The result of the successful fixture schedule calls: one pairing, for
content c1 on FACEBOOK at the 2025-01-01 morning slot. -/
def resJan : ScheduleResult := ⟨1, [⟨"c1", .FACEBOOK, jan1Slot, "fb-1"⟩]⟩

def dbSchedAfter : Db := (scheduleContent envDec dbSched reqJan15).2

def dbFrameAfter : Db := (scheduleContent envDec dbFrame reqFrame).2

/-! ## Helper lemmas -/

lemma intContains_mem {l : List Int} {a : Int} : l.contains a = true ↔ a ∈ l := by
  simp [List.contains, List.elem_iff]

lemma parseHM_nonneg (s : String) : 0 ≤ (parseHM s).1 ∧ 0 ≤ (parseHM s).2 := by
  unfold parseHM
  split
  · refine ⟨?_, ?_⟩ <;> simp [Int.ofNat_nonneg]
  · simp

lemma of_mem_genSlotsLoop {tz : TzModel} {dows : List Int} {hm : Int × Int}
    {now E : Int} :
    ∀ {fuel : Nat} {d t : Int}, t ∈ genSlotsLoop tz dows hm now E fuel d →
      ∃ k : Int, d ≤ k ∧ k * 1440 ≤ E ∧ dows.contains (jsDow k) = true ∧
        t = tz.toUtc (k * 1440 + hm.1 * 60 + hm.2) ∧ now < t := by
  intro fuel
  induction fuel with
  | zero =>
    intro d t ht
    simp [genSlotsLoop] at ht
  | succ fuel ih =>
    intro d t ht
    unfold genSlotsLoop at ht
    split at ht
    · next hcond =>
      split at ht
      · next hc =>
        split at ht
        · next hfut =>
          rcases List.mem_cons.mp ht with h1 | h2
          · exact ⟨d, le_refl d, hcond, hc, h1, h1 ▸ hfut⟩
          · obtain ⟨k, hk1, hk2, hk3, hk4, hk5⟩ := ih h2
            exact ⟨k, by omega, hk2, hk3, hk4, hk5⟩
        · next hfut =>
          obtain ⟨k, hk1, hk2, hk3, hk4, hk5⟩ := ih ht
          exact ⟨k, by omega, hk2, hk3, hk4, hk5⟩
      · next hc =>
        obtain ⟨k, hk1, hk2, hk3, hk4, hk5⟩ := ih ht
        exact ⟨k, by omega, hk2, hk3, hk4, hk5⟩
    · simp at ht

lemma nodup_genSlotsLoop {tz : TzModel} (dows : List Int) (hm : Int × Int)
    (now E : Int) (hinj : ∀ w1 w2, tz.toUtc w1 = tz.toUtc w2 → w1 = w2) :
    ∀ (fuel : Nat) (d : Int), (genSlotsLoop tz dows hm now E fuel d).Nodup := by
  intro fuel
  induction fuel with
  | zero =>
    intro d
    simp [genSlotsLoop]
  | succ fuel ih =>
    intro d
    unfold genSlotsLoop
    split
    · split
      · split
        · next hfut =>
          refine List.Nodup.cons ?_ (ih (d + 1))
          intro hmem
          obtain ⟨k, hk1, _, _, hk4, _⟩ := of_mem_genSlotsLoop hmem
          have : d * 1440 + hm.1 * 60 + hm.2 = k * 1440 + hm.1 * 60 + hm.2 :=
            hinj _ _ hk4
          omega
        · exact ih (d + 1)
      · exact ih (d + 1)
    · exact List.nodup_nil

lemma pairwise_lt_of_sorted_nodup {l : List Int}
    (h1 : List.Pairwise (· ≤ ·) l) (h2 : l.Nodup) : List.Pairwise (· < ·) l := by
  induction l with
  | nil => exact List.Pairwise.nil
  | cons a t ih =>
    rcases List.pairwise_cons.mp h1 with ⟨ha, h1t⟩
    rcases List.nodup_cons.mp h2 with ⟨hna, h2t⟩
    refine List.pairwise_cons.mpr ⟨?_, ih h1t h2t⟩
    intro b hb
    exact lt_of_le_of_ne (ha b hb) (fun he => hna (he ▸ hb))

lemma tzInjective {tz : TzModel} (hrt : ∀ w, tz.toLocal (tz.toUtc w) = w) :
    ∀ w1 w2, tz.toUtc w1 = tz.toUtc w2 → w1 = w2 := by
  intro w1 w2 h
  have h1 := hrt w1
  rw [h, hrt w2] at h1
  exact h1.symm

lemma genSlotsLoop_empty_dows (tz : TzModel) (hm : Int × Int) (now E : Int) :
    ∀ (fuel : Nat) (d : Int), genSlotsLoop tz [] hm now E fuel d = [] := by
  intro fuel
  induction fuel with
  | zero =>
    intro d
    rfl
  | succ fuel ih =>
    intro d
    unfold genSlotsLoop
    split
    · simp only [List.contains]
      simp only [List.elem_eq_mem, List.not_mem_nil, decide_False]
      exact ih (d + 1)
    · rfl

/-! ## Claim theorems -/

/-- C5: for every slot-generation call with a non-empty daysOfWeek, a
well-behaved timezone and a well-formed resolved time of day, every returned
instant is strictly after the clock reading, its local weekday in the given
timezone belongs to daysOfWeek, and the sequence is strictly ascending. -/
theorem generateTimeSlots_future_weekday_ascending
    (startDate : CivilDT) (endInstant : Int) (daysOfWeek : List Int)
    (timeWindow : String) (fixedTime : Option String) (tz : TzModel) (now : Int)
    (_hne : daysOfWeek ≠ [])
    (hrt : ∀ w, tz.toLocal (tz.toUtc w) = w)
    (hT : (parseHM (resolveTimeStr timeWindow fixedTime)).1 * 60 +
      (parseHM (resolveTimeStr timeWindow fixedTime)).2 < 1440) :
    (∀ t ∈ generateTimeSlots startDate endInstant daysOfWeek timeWindow fixedTime tz now,
        now < t ∧ localWeekday tz t ∈ daysOfWeek)
    ∧ List.Pairwise (· < ·)
        (generateTimeSlots startDate endInstant daysOfWeek timeWindow fixedTime tz now) := by
  have hinj := tzInjective hrt
  constructor
  · intro t ht
    unfold generateTimeSlots at ht
    rw [List.mem_insertionSort] at ht
    obtain ⟨k, _, _, hk3, hk4, hk5⟩ := of_mem_genSlotsLoop ht
    refine ⟨hk5, ?_⟩
    have h0 := parseHM_nonneg (resolveTimeStr timeWindow fixedTime)
    have hday : localDayOf tz t = k := by
      rw [hk4]
      unfold localDayOf
      rw [hrt]
      omega
    rw [localWeekday, hday]
    exact intContains_mem.mp hk3
  · unfold generateTimeSlots
    exact pairwise_lt_of_sorted_nodup (List.sorted_insertionSort _ _)
      ((List.perm_insertionSort _ _).nodup_iff.mpr
        (nodup_genSlotsLoop _ _ _ _ hinj _ _))

/-- Witness for C5 at a concrete input: the Monday-morning slot of
2025-01-06 generated for rule daysOfWeek [1] is in the future and lies on a
Monday. -/
theorem generateTimeSlots_props_witness :
    0 < civilToDays 2025 1 6 * 1440 + 570
    ∧ localWeekday idTz (civilToDays 2025 1 6 * 1440 + 570) ∈ [1] :=
  (generateTimeSlots_future_weekday_ascending ⟨2025, 1, 6, 0⟩
    (CivilDT.instant ⟨2025, 1, 12, 1439⟩) [1] ("MORNING") none idTz 0
    (by decide) (fun w => rfl) (by decide)).1
    (civilToDays 2025 1 6 * 1440 + 570) (by decide)

/-- C8 counterexample: on an empty daysOfWeek the generator does not reject;
it returns the empty slot sequence (here: January 2025, AFTERNOON window). -/
theorem generateTimeSlots_empty_counterexample :
    generateTimeSlots ⟨2025, 1, 6, 0⟩ (endOfMonthInstant ⟨2025, 1, 6, 0⟩)
      [] ("AFTERNOON") none idTz 0 = [] := by
  decide

/-- C8 amended: a slot-generation call whose rule has an empty daysOfWeek
set raises no error; the generator iterates the range, keeps no day, and
returns the empty sequence. -/
theorem generateTimeSlots_empty_daysOfWeek (startDate : CivilDT) (endInstant : Int)
    (daysOfWeek : List Int) (timeWindow : String) (fixedTime : Option String)
    (tz : TzModel) (now : Int) (h : daysOfWeek = []) :
    generateTimeSlots startDate endInstant daysOfWeek timeWindow fixedTime tz now = [] := by
  subst h
  unfold generateTimeSlots
  rw [genSlotsLoop_empty_dows]
  rfl

theorem generateTimeSlots_empty_daysOfWeek_witness :
    generateTimeSlots ⟨2025, 1, 6, 0⟩ (endOfMonthInstant ⟨2025, 1, 6, 0⟩)
      [] ("MORNING") none idTz 0 = [] :=
  generateTimeSlots_empty_daysOfWeek ⟨2025, 1, 6, 0⟩ (endOfMonthInstant ⟨2025, 1, 6, 0⟩)
    [] ("MORNING") none idTz 0 rfl

/-! ## Distribution and scheduleContent lemmas -/

lemma pairPlatforms_sound {profile : PublishingProfile} {slots : List Int} {cid : String} :
    ∀ {pls : List Platform} {idx : Nat} {p : PendingItem},
      p ∈ (pairPlatforms profile slots cid pls idx).1 →
      p.contentItemId = cid ∧ p.scheduledFor ∈ slots := by
  intro pls
  induction pls with
  | nil =>
    intro idx p hp
    simp [pairPlatforms] at hp
  | cons pl rest ih =>
    intro idx p hp
    unfold pairPlatforms at hp
    split at hp
    · simp at hp
    · next hlen =>
      split at hp
      · exact ih hp
      · rcases List.mem_cons.mp hp with h1 | h2
        · subst h1
          refine ⟨rfl, ?_⟩
          have hidx : idx < slots.length := by omega
          rw [List.getD_eq_getElem slots 0 hidx]
          exact List.getElem_mem hidx
        · exact ih h2

lemma distribute_sound {profile : PublishingProfile} {slots : List Int} :
    ∀ {cs : List ContentItem} {idx : Nat} {p : PendingItem},
      p ∈ distribute profile slots cs idx →
      (∃ c ∈ cs, p.contentItemId = c.id) ∧ p.scheduledFor ∈ slots := by
  intro cs
  induction cs with
  | nil =>
    intro idx p hp
    simp [distribute] at hp
  | cons c rest ih =>
    intro idx p hp
    unfold distribute at hp
    rcases List.mem_append.mp hp with h1 | h2
    · obtain ⟨h3, h4⟩ := pairPlatforms_sound h1
      exact ⟨⟨c, List.mem_cons_self c rest, h3⟩, h4⟩
    · obtain ⟨⟨c2, hc2, h3⟩, h4⟩ := ih h2
      exact ⟨⟨c2, List.mem_cons_of_mem c hc2, h3⟩, h4⟩

lemma scheduleContent_ok {env : SchedEnv} {db : Db} {req : ScheduleRequest}
    {res : ScheduleResult} {db2 : Db}
    (h : scheduleContent env db req = (.ok res, db2)) :
    ∃ profile rule,
      db.publishingProfiles.find? (fun p => p.accountId == req.accountId) = some profile ∧
      db.postingRules.find? (fun r => r.accountId == req.accountId) = some rule ∧
      res.items = distribute profile
        (generateTimeSlots (req.startDate.getD env.nowCivil)
          (endOfMonthInstant (req.startDate.getD env.nowCivil))
          rule.daysOfWeek rule.timeWindow rule.fixedTime
          (env.tzdb (resolveTimezone db req.accountId)) env.now)
        (approvedRequested db req) 0 ∧
      db2 = applyScheduleTransaction db req res.items := by
  unfold scheduleContent at h
  split at h
  · simp at h
  · next profile hfind =>
    split at h
    · simp at h
    · split at h
      · simp at h
      · split at h
        · simp at h
        · next rule hrule =>
          dsimp only [] at h
          split at h
          · simp at h
          · rw [Prod.mk.injEq, Except.ok.injEq] at h
            obtain ⟨h1, h2⟩ := h
            refine ⟨profile, rule, hfind, hrule, ?_, ?_⟩
            · rw [← h1]
            · rw [← h2, ← h1]

/-- C7 counterexample: with the clock at 2024-12-01 and the explicit
startDate 2025-01-15, scheduleContent schedules the content for
2025-01-01T09:30Z, a calendar day strictly before the requested startDate. -/
theorem scheduleContent_before_startDate_counterexample :
    (scheduleContent envDec dbSched reqJan15).1 =
      .ok ⟨1, [⟨"c1", Platform.FACEBOOK, jan1Slot, "fb-1"⟩]⟩ ∧
    localDayOf idTz jan1Slot < civilToDays 2025 1 15 := by
  constructor
  · rfl
  · decide

/-- C7 amended: for a scheduleContent call with an explicit startDate (under
a well-behaved timezone and well-formed rule times), every created item is
scheduled on a calendar day between the FIRST day of startDate's month and
the end of that month inclusive - the range starts at startOfMonth, not at
startDate - and strictly after the clock reading. -/
theorem scheduleContent_slots_within_start_month
    (env : SchedEnv) (db : Db) (req : ScheduleRequest) (res : ScheduleResult)
    (db2 : Db) (sd : CivilDT)
    (hsd : req.startDate = some sd)
    (h : scheduleContent env db req = (.ok res, db2))
    (htz : ∀ name w, (env.tzdb name).toLocal ((env.tzdb name).toUtc w) = w)
    (hT : ∀ rule ∈ db.postingRules,
      (parseHM (resolveTimeStr rule.timeWindow rule.fixedTime)).1 * 60 +
        (parseHM (resolveTimeStr rule.timeWindow rule.fixedTime)).2 < 1440) :
    ∀ p ∈ res.items,
      civilToDays sd.year sd.month 1 ≤
          localDayOf (env.tzdb (resolveTimezone db req.accountId)) p.scheduledFor ∧
      localDayOf (env.tzdb (resolveTimezone db req.accountId)) p.scheduledFor ≤
          civilToDays sd.year sd.month (daysInMonth sd.year sd.month) ∧
      env.now < p.scheduledFor := by
  obtain ⟨profile, rule, hfind, hrule, hitems, hdb2⟩ := scheduleContent_ok h
  intro p hp
  rw [hitems] at hp
  obtain ⟨_, hslot⟩ := distribute_sound hp
  rw [hsd] at hslot
  unfold generateTimeSlots at hslot
  rw [List.mem_insertionSort] at hslot
  obtain ⟨k, hk1, hk2, _, hk4, hk5⟩ := of_mem_genSlotsLoop hslot
  have hTr := hT rule (List.mem_of_find?_eq_some hrule)
  have h0 := parseHM_nonneg (resolveTimeStr rule.timeWindow rule.fixedTime)
  have hday : localDayOf (env.tzdb (resolveTimezone db req.accountId)) p.scheduledFor = k := by
    rw [hk4]
    unfold localDayOf
    rw [htz]
    omega
  rw [hday]
  refine ⟨by simpa using hk1, ?_, hk5⟩
  have hend : k * 1440 ≤
      civilToDays sd.year sd.month (daysInMonth sd.year sd.month) * 1440 + 1439 := by
    simpa [endOfMonthInstant] using hk2
  omega

/-- C10: a successful scheduleContent call deletes every pre-existing
ScheduleItem of the requesting account whose contentItemId is among the
requested ids, and leaves every other ScheduleItem in place unchanged.  The
first conjunct is the exact effect of the transaction on the table: the
rows afterwards are precisely the pre-existing rows NOT matching the
deleteMany filter (requested contentItemId AND requesting account), in
order, followed by the freshly created rows - so every targeted
pre-existing row is gone.  The remaining conjuncts spell out the two sides:
non-targeted rows survive, and any row of the account still carrying a
requested id is one of the freshly created QUEUED rows for a content item
that was APPROVED in the old database - so requested-but-unapproved items
get no replacement. -/
theorem scheduleContent_reschedule_frame
    (env : SchedEnv) (db : Db) (req : ScheduleRequest) (res : ScheduleResult) (db2 : Db)
    (h : scheduleContent env db req = (.ok res, db2)) :
    db2.scheduleItems =
        db.scheduleItems.filter
          (fun s => !(req.contentItemIds.contains s.contentItemId && s.accountId == req.accountId))
        ++ res.items.map (mkScheduleItem req.accountId)
    ∧ (∀ s ∈ db.scheduleItems,
        ¬(req.contentItemIds.contains s.contentItemId = true ∧ s.accountId = req.accountId) →
        s ∈ db2.scheduleItems)
    ∧ (∀ s ∈ db2.scheduleItems,
        req.contentItemIds.contains s.contentItemId = true → s.accountId = req.accountId →
        s ∈ res.items.map (mkScheduleItem req.accountId) ∧
        s.status = "QUEUED" ∧ s.providerJobId = none ∧
        ∃ c ∈ db.contentItems, c.id = s.contentItemId ∧ c.accountId = req.accountId ∧
          c.status = "APPROVED") := by
  obtain ⟨profile, rule, hfind, hrule, hitems, hdb2⟩ := scheduleContent_ok h
  subst hdb2
  refine ⟨rfl, ?_, ?_⟩
  · intro s hs hnot
    apply List.mem_append_left
    rw [List.mem_filter]
    refine ⟨hs, ?_⟩
    simp only [Bool.not_eq_true', Bool.and_eq_false_iff]
    by_cases hc : req.contentItemIds.contains s.contentItemId = true
    · right
      rw [beq_eq_false_iff_ne]
      intro heq
      exact hnot ⟨hc, heq⟩
    · left
      cases hb : req.contentItemIds.contains s.contentItemId with
      | false => rfl
      | true => exact absurd hb hc
  · intro s hs hcont hacct
    rcases List.mem_append.mp hs with h1 | h2
    · rw [List.mem_filter] at h1
      exfalso
      have := h1.2
      simp only [Bool.not_eq_true', Bool.and_eq_false_iff] at this
      rcases this with hx | hx
      · rw [hcont] at hx
        exact Bool.noConfusion hx
      · rw [beq_eq_false_iff_ne] at hx
        exact hx hacct
    · refine ⟨h2, ?_⟩
      rw [List.mem_map] at h2
      obtain ⟨p, hp, hps⟩ := h2
      rw [hitems] at hp
      obtain ⟨⟨c, hc, hcid⟩, _⟩ := distribute_sound hp
      unfold approvedRequested at hc
      rw [List.mem_filter] at hc
      obtain ⟨hcdb, hcpred⟩ := hc
      simp only [Bool.and_eq_true, beq_iff_eq] at hcpred
      refine ⟨?_, ?_, c, hcdb, ?_, hcpred.1.2, hcpred.2⟩
      · rw [← hps]
        rfl
      · rw [← hps]
        rfl
      · rw [← hps]
        show c.id = p.contentItemId
        rw [hcid]

/-- Witness for the amended C7 at a concrete input: the single pairing of
the fixture call is scheduled inside January 2025 and after the clock. -/
theorem scheduleContent_slots_within_start_month_witness :
    civilToDays 2025 1 1 ≤
        localDayOf (envDec.tzdb (resolveTimezone dbSched reqJan15.accountId)) jan1Slot ∧
    localDayOf (envDec.tzdb (resolveTimezone dbSched reqJan15.accountId)) jan1Slot ≤
        civilToDays 2025 1 (daysInMonth 2025 1) ∧
    envDec.now < jan1Slot :=
  scheduleContent_slots_within_start_month envDec dbSched reqJan15 resJan dbSchedAfter
    ⟨2025, 1, 15, 0⟩ rfl rfl (fun name w => rfl)
    (by
      intro r hr
      rw [List.mem_singleton.mp hr]
      decide)
    ⟨"c1", .FACEBOOK, jan1Slot, "fb-1"⟩ (by decide)

/-- Witness for C10 at a concrete input: after the fixture re-schedule the
table is exactly the non-targeted survivors (the rows for untouched content
c9 and for the other account) followed by the one freshly created row - the
pre-existing rows for the requested c1 and c2 are deleted, c2 (unapproved)
with no replacement - and the two survivors are still present. -/
theorem scheduleContent_reschedule_frame_witness :
    dbFrameAfter.scheduleItems =
        dbFrame.scheduleItems.filter
          (fun s => !(reqFrame.contentItemIds.contains s.contentItemId && s.accountId == reqFrame.accountId))
        ++ resJan.items.map (mkScheduleItem reqFrame.accountId)
    ∧ oldItemC9 ∈ dbFrameAfter.scheduleItems ∧ oldItemOther ∈ dbFrameAfter.scheduleItems :=
  ⟨(scheduleContent_reschedule_frame envDec dbFrame reqFrame resJan dbFrameAfter rfl).1,
   (scheduleContent_reschedule_frame envDec dbFrame reqFrame resJan dbFrameAfter rfl).2.1
      oldItemC9 (by decide) (by decide),
   (scheduleContent_reschedule_frame envDec dbFrame reqFrame resJan dbFrameAfter rfl).2.1
      oldItemOther (by decide) (by decide)⟩

/-- C6: scheduleContent checks its preconditions in source order and, on the
first failing one, returns the corresponding error with the database
untouched: no ScheduleItem is created or deleted and no ContentItem status
changes. -/
theorem scheduleContent_precondition_order (env : SchedEnv) (db : Db) (req : ScheduleRequest) :
    ((∀ p, db.publishingProfiles.find? (fun q => q.accountId == req.accountId) = some p →
        p.status ≠ "VERIFIED") →
      scheduleContent env db req = (.error .destinationNotVerified, db))
    ∧ (∀ p, db.publishingProfiles.find? (fun q => q.accountId == req.accountId) = some p →
        p.status = "VERIFIED" → p.verifiedAt = none →
      scheduleContent env db req = (.error .profileNotVerified, db))
    ∧ (∀ p, db.publishingProfiles.find? (fun q => q.accountId == req.accountId) = some p →
        p.status = "VERIFIED" → p.verifiedAt ≠ none →
        db.postingRules.find? (fun r => r.accountId == req.accountId) = none →
      scheduleContent env db req = (.error .postingRuleMissing, db))
    ∧ (∀ p rule, db.publishingProfiles.find? (fun q => q.accountId == req.accountId) = some p →
        p.status = "VERIFIED" → p.verifiedAt ≠ none →
        db.postingRules.find? (fun r => r.accountId == req.accountId) = some rule →
        approvedRequested db req = [] →
      scheduleContent env db req = (.error .noEligibleContent, db)) := by
  refine ⟨?_, ?_, ?_, ?_⟩
  · intro hp
    unfold scheduleContent
    cases hfind : db.publishingProfiles.find? (fun q => q.accountId == req.accountId) with
    | none => rfl
    | some p =>
      dsimp only
      rw [if_pos (hp p hfind)]
  · intro p hfind hv hva
    unfold scheduleContent
    rw [hfind]
    dsimp only
    rw [if_neg (fun hne => hne hv), if_pos hva]
  · intro p hfind hv hva hrule
    unfold scheduleContent
    rw [hfind]
    dsimp only
    rw [if_neg (fun hne => hne hv), if_neg hva, hrule]
  · intro p rule hfind hv hva hrule happ
    unfold scheduleContent
    rw [hfind]
    dsimp only
    rw [if_neg (fun hne => hne hv), if_neg hva, hrule]
    dsimp only
    rw [happ]
    rfl

theorem scheduleContent_precondition_order_witness :
    scheduleContent envDec dbNoProfile reqJan15 = (.error .destinationNotVerified, dbNoProfile)
    ∧ scheduleContent envDec dbNoVerifiedAt reqJan15 = (.error .profileNotVerified, dbNoVerifiedAt)
    ∧ scheduleContent envDec dbNoRule reqJan15 = (.error .postingRuleMissing, dbNoRule)
    ∧ scheduleContent envDec dbNoApproved reqJan15 = (.error .noEligibleContent, dbNoApproved) :=
  ⟨(scheduleContent_precondition_order envDec dbNoProfile reqJan15).1 (fun p h => nomatch h),
   (scheduleContent_precondition_order envDec dbNoVerifiedAt reqJan15).2.1
     profileUnverifiedAt rfl rfl rfl,
   (scheduleContent_precondition_order envDec dbNoRule reqJan15).2.2.1
     profileFb rfl rfl (by decide) rfl,
   (scheduleContent_precondition_order envDec dbNoApproved reqJan15).2.2.2
     profileFb ruleWed rfl rfl (by decide) rfl rfl⟩

/-- C9: getUsageCounter returns the stored counter unchanged exactly when
its period equals the account's current billing period; in every other case
it persists and returns the zeroed counter carrying the current period. -/
theorem getUsageCounter_period_reset
    (db : Db) (accountId : String) (a : Account) (ps pe : Int)
    (ha : db.accounts.find? (fun x => x.id == accountId) = some a)
    (hps : a.currentPeriodStart = some ps) (hpe : a.currentPeriodEnd = some pe) :
    (∀ c, db.usageCounters.find? (fun u => u.accountId == accountId) = some c →
        c.periodStart = ps ∧ c.periodEnd = pe →
        getUsageCounter db accountId = (.ok c, db))
    ∧ (∀ c, db.usageCounters.find? (fun u => u.accountId == accountId) = some c →
        ¬(c.periodStart = ps ∧ c.periodEnd = pe) →
        getUsageCounter db accountId =
          (.ok (zeroCounter accountId ps pe),
            { db with usageCounters :=
                db.usageCounters.map (fun u => if u.accountId == accountId then zeroCounter accountId ps pe else u) }))
    ∧ (db.usageCounters.find? (fun u => u.accountId == accountId) = none →
        getUsageCounter db accountId =
          (.ok (zeroCounter accountId ps pe),
            { db with usageCounters := db.usageCounters ++ [zeroCounter accountId ps pe] })) := by
  refine ⟨?_, ?_, ?_⟩
  · intro c hc hmatch
    unfold getUsageCounter
    rw [ha]
    dsimp only
    rw [hps, hpe]
    dsimp only
    rw [hc]
    dsimp only
    rw [if_pos hmatch]
  · intro c hc hmatch
    unfold getUsageCounter
    rw [ha]
    dsimp only
    rw [hps, hpe]
    dsimp only
    rw [hc]
    dsimp only
    rw [if_neg hmatch]
    unfold upsertUsageCounter
    rw [hc]
  · intro hc
    unfold getUsageCounter
    rw [ha]
    dsimp only
    rw [hps, hpe]
    dsimp only
    rw [hc]
    dsimp only
    unfold upsertUsageCounter
    rw [hc]

theorem getUsageCounter_period_reset_witness :
    getUsageCounter dbUsageMatch ("acct-b") = (.ok counterMatching, dbUsageMatch)
    ∧ getUsageCounter dbUsageStale ("acct-b") =
        (.ok (zeroCounter ("acct-b") 1000 2000),
          { dbUsageStale with usageCounters :=
              dbUsageStale.usageCounters.map (fun u => if u.accountId == "acct-b" then zeroCounter ("acct-b") 1000 2000 else u) }) :=
  ⟨(getUsageCounter_period_reset dbUsageMatch ("acct-b") acctBilling 1000 2000
      rfl rfl rfl).1 counterMatching rfl ⟨rfl, rfl⟩,
   (getUsageCounter_period_reset dbUsageStale ("acct-b") acctBilling 1000 2000
      rfl rfl rfl).2.1 counterStale rfl (by decide)⟩

/-! ## Worker, webhook and cancellation theorems -/

lemma updateScheduleItem_preserves (db : Db) (id : String) (f : ScheduleItem → ScheduleItem)
    (hf : ∀ s, (f s).id = s.id ∧ (f s).providerProfileId = s.providerProfileId) :
    ∀ s ∈ (updateScheduleItem db id f).scheduleItems,
      ∃ s0 ∈ db.scheduleItems, s0.id = s.id ∧ s.providerProfileId = s0.providerProfileId := by
  intro s hs
  unfold updateScheduleItem at hs
  obtain ⟨s0, hs0, rfl⟩ := List.mem_map.mp hs
  refine ⟨s0, hs0, ?_, ?_⟩
  · split
    · exact (hf s0).1.symm
    · rfl
  · split
    · exact (hf s0).2
    · rfl

lemma mem_self_preserved (db : Db) :
    ∀ s ∈ db.scheduleItems,
      ∃ s0 ∈ db.scheduleItems, s0.id = s.id ∧ s.providerProfileId = s0.providerProfileId :=
  fun s hs => ⟨s, hs, rfl, rfl⟩

/-- C2: no later operation overwrites a ScheduleItem's frozen destination id
(providerProfileId): not the Publish Worker's outcome or failure update, not
the Ayrshare webhook update, and not cancellation - every schedule row after
any of these operations carries the providerProfileId of the row with the
same id before the operation. -/
theorem frozen_destination_immutable
    (db : Db) (itemId : String) (resp : Except String AyrResponse)
    (body : AyrWebhookBody) (accountId cancelId : String) :
    (∀ s ∈ (workerProcessJob db itemId resp).db.scheduleItems,
        ∃ s0 ∈ db.scheduleItems, s0.id = s.id ∧ s.providerProfileId = s0.providerProfileId)
    ∧ (∀ s ∈ (ayrshareWebhook db body).scheduleItems,
        ∃ s0 ∈ db.scheduleItems, s0.id = s.id ∧ s.providerProfileId = s0.providerProfileId)
    ∧ (∀ s ∈ (cancelScheduledPost db accountId cancelId).2.scheduleItems,
        ∃ s0 ∈ db.scheduleItems, s0.id = s.id ∧ s.providerProfileId = s0.providerProfileId) := by
  refine ⟨?_, ?_, ?_⟩
  · unfold workerProcessJob
    split
    · exact mem_self_preserved db
    · split
      · exact mem_self_preserved db
      · split
        · exact mem_self_preserved db
        · split
          · exact mem_self_preserved db
          · split
            · exact mem_self_preserved db
            · dsimp only
              split
              · exact updateScheduleItem_preserves db itemId _ (fun s => ⟨rfl, rfl⟩)
              · dsimp only
                split <;> split <;>
                  exact updateScheduleItem_preserves db itemId _ (fun s => ⟨rfl, rfl⟩)
  · unfold ayrshareWebhook
    split
    · exact mem_self_preserved db
    · split
      · exact mem_self_preserved db
      · apply updateScheduleItem_preserves
        intro s
        split
        · exact ⟨rfl, rfl⟩
        · split
          · exact ⟨rfl, rfl⟩
          · exact ⟨rfl, rfl⟩
  · unfold cancelScheduledPost
    split
    · exact mem_self_preserved db
    · split
      · exact mem_self_preserved db
      · dsimp only
        split
        · exact updateScheduleItem_preserves db cancelId _ (fun s => ⟨rfl, rfl⟩)
        · exact updateScheduleItem_preserves db cancelId _ (fun s => ⟨rfl, rfl⟩)

/-- C1 counterexample: destination changed between scheduling and firing.
The worker does not call the provider, but contrary to the claim the item is
NOT marked FAILED (it stays QUEUED with no error message recorded); the
handler throws before reaching the try/catch that marks rows FAILED. -/
theorem worker_mismatch_counterexample :
    (workerProcessJob dbChanged ("s1") (.error ("unused"))).providerRequest = none
    ∧ ((workerProcessJob dbChanged ("s1") (.error ("unused"))).db.scheduleItems.find?
        (fun s => s.id == "s1")).map ScheduleItem.status = some ("QUEUED")
    ∧ ((workerProcessJob dbChanged ("s1") (.error ("unused"))).db.scheduleItems.find?
        (fun s => s.id == "s1")).map ScheduleItem.status ≠ some ("FAILED")
    ∧ (workerProcessJob dbChanged ("s1") (.error ("unused"))).error =
        some WorkerErr.profileMismatch := by
  refine ⟨rfl, rfl, by decide, rfl⟩

/-- C1 amended: when the recomputed current destination id differs from the
frozen one, the worker aborts before the provider call by throwing the
profile-mismatch error (message: Provider profile mismatch - destinations
may have changed); it does not call the provider and leaves the database -
in particular the ScheduleItem's status and errorMessage - unchanged. -/
theorem worker_destination_mismatch_aborts
    (db : Db) (itemId : String) (resp : Except String AyrResponse)
    (item : ScheduleItem) (content : ContentItem) (profile : PublishingProfile)
    (hitem : db.scheduleItems.find? (fun s => s.id == itemId) = some item)
    (hcontent : db.contentItems.find? (fun c => c.id == item.contentItemId) = some content)
    (hown : content.accountId = item.accountId)
    (hprof : db.publishingProfiles.find? (fun p => p.accountId == item.accountId) = some profile)
    (hmismatch : providerProfileFor profile item.platform ≠ some item.providerProfileId) :
    workerProcessJob db itemId resp = ⟨db, none, some WorkerErr.profileMismatch⟩
    ∧ WorkerErr.profileMismatch.message =
        "Provider profile mismatch - destinations may have changed" := by
  constructor
  · unfold workerProcessJob
    rw [hitem]
    dsimp only
    rw [hcontent]
    dsimp only
    rw [if_neg (fun hne => hne hown), hprof]
    dsimp only
    rw [if_pos hmismatch]
  · rfl

theorem worker_destination_mismatch_aborts_witness :
    workerProcessJob dbChanged ("s1") (.error ("boom")) =
      ⟨dbChanged, none, some WorkerErr.profileMismatch⟩
    ∧ WorkerErr.profileMismatch.message =
        "Provider profile mismatch - destinations may have changed" :=
  worker_destination_mismatch_aborts dbChanged ("s1") (.error ("boom")) itemS1 contentW
    profileBNow rfl rfl rfl rfl (by decide)

/-- C3 evaluation at the failing input: a successful scheduleContent call
creates the schedule row with status QUEUED and no provider job id, and
returns - the committed function performs no Dispatcher enqueue at all
(enqueuePublishJob is never invoked), so the QUEUED row has no job that
would ever fire it. -/
theorem scheduleContent_creates_queued_without_dispatch :
    (scheduleContent envDec dbSched reqJan15).1 = .ok resJan
    ∧ ((scheduleContent envDec dbSched reqJan15).2.scheduleItems.map ScheduleItem.status) =
        ["QUEUED"]
    ∧ ((scheduleContent envDec dbSched reqJan15).2.scheduleItems.map ScheduleItem.providerJobId) =
        [none] := by
  refine ⟨rfl, rfl, rfl⟩

/-- C4 evaluation at the failing input: cancelling a pending item only sets
its status to CANCELLED; no queue operation happens, and when the still-live
Dispatcher job later fires, the worker (which never checks the status) calls
the provider with the frozen destination and marks the cancelled item
PUBLISHED. -/
theorem cancelled_item_still_published :
    (cancelScheduledPost dbFresh ("acct-1") ("s1")).1 = CancelResponse.success
    ∧ (((cancelScheduledPost dbFresh ("acct-1") ("s1")).2.scheduleItems.find?
        (fun s => s.id == "s1")).map ScheduleItem.status) = some ("CANCELLED")
    ∧ (((workerProcessJob ((cancelScheduledPost dbFresh ("acct-1") ("s1")).2) ("s1")
          (.ok respOk)).providerRequest).map AyrPostRequest.profileKey) = some ("profile-A")
    ∧ (((workerProcessJob ((cancelScheduledPost dbFresh ("acct-1") ("s1")).2) ("s1")
          (.ok respOk)).db.scheduleItems.find?
        (fun s => s.id == "s1")).map ScheduleItem.status) = some ("PUBLISHED") := by
  refine ⟨rfl, rfl, rfl, rfl⟩
